import Mathlib

/-!
Verification of the block-statistics fetch tool (`src/celestia_search_tool.rs`).

The tool's `call` method builds a URL from a block height, issues an HTTP GET
(via the external `reqwest` library), and then deterministically processes the
response: it checks the HTTP status, parses the body as JSON (via the external
`serde_json` library), checks for a top-level `error` object, extracts fifteen
fields with defensive defaults, and renders a one-line summary of the fee.

The network transport and the JSON parser are external libraries, so they are
treated as oracles here: `processResponse` takes the observed HTTP status, the
raw body text, and the outcome of `serde_json::from_str` on that text (either a
parsed JSON value or a parse-error message) and performs exactly the
repository's own logic from that point on (lines 86-201 of the source file).
-/

set_option autoImplicit false

namespace Celestia

/-- Model of `serde_json::Value`.  Objects carry their entries as an
association list; `serde_json` stores them in a map keyed by strings, so a
parsed object never holds two entries with the same key and first-match lookup
coincides with map lookup.  JSON numbers are modelled as integers; no claim
inspects the numeric payload of a non-string JSON value, only its type. -/
inductive Json where
  | null
  | bool (b : Bool)
  | num (n : Int)
  | str (s : String)
  | arr (elems : List Json)
  | obj (fields : List (String × Json))

/-- Model of `serde_json::Value::get(key)`: map lookup on an object, `None`
on every other JSON value. -/
def Json.get (j : Json) (key : String) : Option Json :=
  match j with
  | Json.obj fields => fields.lookup key
  | _ => none

/-- Model of `serde_json::Value::as_str()`: `Some` exactly on JSON strings. -/
def Json.as_str (j : Json) : Option String :=
  match j with
  | Json.str s => some s
  | _ => none

/-- Model of Rust's `str::parse::<u64>()` applied to the character list after
an optional leading `+` sign: one or more ASCII digits, value below `2 ^ 64`;
anything else is a parse error. -/
def parseU64Digits (cs : List Char) : Option Nat :=
  if cs = [] then none
  else if cs.all Char.isDigit then
    let v := cs.foldl (fun a c => a * 10 + (c.toNat - 48)) 0
    if v < 2 ^ 64 then some v else none
  else none

/-- Model of Rust's `str::parse::<u64>()`: an optional leading `+`, then one
or more ASCII digits, rejecting values that overflow 64 bits. -/
def parseU64 (s : String) : Option Nat :=
  match s.data with
  | [] => none
  | c :: rest => if c = '+' then parseU64Digits rest else parseU64Digits (c :: rest)

/-- The error type of the tool (`CelestiaSearchError` in the source):
a transport/format failure or an application-level API failure, each
carrying a descriptive string. -/
inductive CelestiaSearchError where
  | HttpRequestFailed (detail : String)
  | ApiError (detail : String)
deriving DecidableEq

/-- The record of the fifteen extracted fields (`CelestiaOption` in the
source): nine unsigned 64-bit counters and six decimal strings. -/
structure CelestiaOption where
  blobs_count : Nat
  blobs_size : Nat
  block_time : Nat
  bytes_in_block : Nat
  commissions : String
  events_count : Nat
  fee : String
  fill_rate : String
  gas_limit : Nat
  gas_used : Nat
  inflation_rate : String
  rewards : String
  square_size : Nat
  supply_change : String
  tx_count : Nat
deriving DecidableEq

/-- The fixed API endpoint (`API_ENDPOINT` in the source). -/
def API_ENDPOINT : String := "https://api-mainnet.celenium.io/v1/block"

/-- The request URL built by `call`:
`format!("{}/{}/stats", API_ENDPOINT, args.height)`.  Rust's `Display` for
`u64` is the plain decimal form, modelled by `Nat.repr`. -/
def buildUrl (height : Nat) : String :=
  API_ENDPOINT ++ "/" ++ Nat.repr height ++ "/stats"

/-- Model of `reqwest::StatusCode::is_success()`: status in `200..=299`. -/
def isSuccess (status : Nat) : Bool :=
  decide (200 ≤ status ∧ status < 300)

/-- Rendering of the status code inside the error message
`format!("Status: {}, Response: {}", status, text)`.  The `Display` of
`http::StatusCode` prints the decimal code followed by a canonical reason
phrase; the phrase comes from the external `http` crate and no claim depends
on it, so only the decimal code is rendered here. -/
def statusDisplay (status : Nat) : String :=
  Nat.repr status

/-- The chain applied to each of the nine numeric fields (source lines
107-160):
`data.get(key).and_then(|v| v.as_str()).unwrap_or("0").parse::<u64>().unwrap_or(0)`. -/
def extractU64 (data : Json) (key : String) : Nat :=
  (parseU64 (((data.get key).bind Json.as_str).getD "0")).getD 0

/-- The chain applied to each of the six decimal-string fields (source lines
161-178): `data.get(key).and_then(|v| v.as_str()).unwrap_or("0")`. -/
def extractStr (data : Json) (key : String) : String :=
  ((data.get key).bind Json.as_str).getD "0"

/-- The nine field keys extracted as string-encoded unsigned integers, in
source order. -/
def numericKeys : List String :=
  ["tx_count", "block_time", "gas_limit", "gas_used", "square_size",
   "bytes_in_block", "events_count", "blobs_count", "blobs_size"]

/-- The six field keys extracted as decimal strings, in source order. -/
def stringKeys : List String :=
  ["fee", "supply_change", "inflation_rate", "fill_rate", "rewards",
   "commissions"]

/-- Field extraction and construction of the `CelestiaOption` record (source
lines 107-196).  The source inlines the identical
`get / and_then(as_str) / unwrap_or / parse / unwrap_or` chain once per field;
here each field applies `extractU64` or `extractStr`, which are those chains
verbatim. -/
def extractStats (data : Json) : CelestiaOption :=
  let tx_count := extractU64 data "tx_count"
  let block_time := extractU64 data "block_time"
  let gas_limit := extractU64 data "gas_limit"
  let gas_used := extractU64 data "gas_used"
  let square_size := extractU64 data "square_size"
  let bytes_in_block := extractU64 data "bytes_in_block"
  let events_count := extractU64 data "events_count"
  let blobs_count := extractU64 data "blobs_count"
  let blobs_size := extractU64 data "blobs_size"
  let fee := extractStr data "fee"
  let supply_change := extractStr data "supply_change"
  let inflation_rate := extractStr data "inflation_rate"
  let fill_rate := extractStr data "fill_rate"
  let rewards := extractStr data "rewards"
  let commissions := extractStr data "commissions"
  { blobs_count := blobs_count
    blobs_size := blobs_size
    block_time := block_time
    bytes_in_block := bytes_in_block
    commissions := commissions
    events_count := events_count
    fee := fee
    fill_rate := fill_rate
    gas_limit := gas_limit
    gas_used := gas_used
    inflation_rate := inflation_rate
    rewards := rewards
    square_size := square_size
    supply_change := supply_change
    tx_count := tx_count }

/-- The response-processing phase of `call` (source lines 86-201), starting
from the observed HTTP status, the body text, and the outcome of
`serde_json::from_str` on that text: non-success status fails with `ApiError`
carrying status and body; a parse failure fails with `HttpRequestFailed`; a
top-level `error` key fails with `ApiError` carrying `error.message` when it
is a string and `"Unknown error"` otherwise; otherwise the fifteen fields are
extracted and the fee line is returned. -/
def processResponse (status : Nat) (text : String)
    (parsed : Except String Json) : Except CelestiaSearchError String :=
  if !isSuccess status then
    Except.error (CelestiaSearchError.ApiError
      ("Status: " ++ statusDisplay status ++ ", Response: " ++ text))
  else
    match parsed with
    | Except.error e => Except.error (CelestiaSearchError.HttpRequestFailed e)
    | Except.ok data =>
      match data.get "error" with
      | some err =>
        let error_message := ((err.get "message").bind Json.as_str).getD "Unknown error"
        Except.error (CelestiaSearchError.ApiError error_message)
      | none =>
        let celestia_option := extractStats data
        Except.ok ("    The gas fee is: " ++ celestia_option.fee)

/-- String containment: `needle` occurs contiguously inside `hay`. -/
def strContains (hay needle : String) : Prop :=
  ∃ pre post : String, hay = pre ++ needle ++ post

/-- The spec's end-to-end mock response for height 9999: fee `"1234"`,
tx count `"5"`, every other field `"0"`. -/
def mockStatsData : Json :=
  Json.obj
    [("fee", Json.str "1234"), ("tx_count", Json.str "5"),
     ("block_time", Json.str "0"), ("gas_limit", Json.str "0"),
     ("gas_used", Json.str "0"), ("square_size", Json.str "0"),
     ("bytes_in_block", Json.str "0"), ("events_count", Json.str "0"),
     ("blobs_count", Json.str "0"), ("blobs_size", Json.str "0"),
     ("supply_change", Json.str "0"), ("inflation_rate", Json.str "0"),
     ("fill_rate", Json.str "0"), ("rewards", Json.str "0"),
     ("commissions", Json.str "0")]

/-- A response with one well-formed numeric field, one numeric field of the
wrong JSON type, and one numeric field whose text overflows 64 bits. -/
def mockNumData : Json :=
  Json.obj
    [("tx_count", Json.str "5"), ("block_time", Json.num 3),
     ("gas_limit", Json.str "99999999999999999999999999")]

/-- A response whose `fee` field has the wrong JSON type while `tx_count`
is well-formed. -/
def mockBrokenFee : Json :=
  Json.obj [("fee", Json.num 7), ("tx_count", Json.str "5")]

/-- A response holding only the well-formed `tx_count` field. -/
def mockTxOnly : Json :=
  Json.obj [("tx_count", Json.str "5")]

/-- A response with fee `"7"` and a small transaction count. -/
def mockFeeA : Json :=
  Json.obj [("fee", Json.str "7"), ("tx_count", Json.str "5")]

/-- A response with the same fee `"7"` but different other statistics. -/
def mockFeeB : Json :=
  Json.obj
    [("fee", Json.str "7"), ("tx_count", Json.str "99"),
     ("blobs_count", Json.str "3"), ("rewards", Json.str "817")]

/-- The fee field of the extracted record is the string extraction of key
`"fee"`. -/
theorem extractStats_fee (data : Json) :
    (extractStats data).fee = extractStr data "fee" := rfl

/-- On a success status, a parsed body free of the `error` key always
produces the fee line. -/
theorem processResponse_ok (status : Nat) (text : String) (data : Json)
    (hs : isSuccess status = true) (he : data.get "error" = none) :
    processResponse status text (Except.ok data) =
      Except.ok ("    The gas fee is: " ++ extractStr data "fee") := by
  simp [processResponse, hs, he, extractStats_fee]

/-- A JSON value that is not an object has no fields to look up. -/
theorem Json.get_eq_none_of_not_obj (data : Json) (key : String)
    (hno : ∀ fields, data ≠ Json.obj fields) : data.get key = none := by
  cases data <;> first | rfl | exact absurd rfl (hno _)

/-- C1: on a successful call (success status, valid JSON body, no top-level
`error` key) the returned string is exactly the four-space-indented
`The gas fee is:` line with the extracted fee substituted verbatim; no other
extracted field appears in the output. -/
theorem success_output_is_exactly_fee_line (status : Nat) (text : String)
    (data : Json) (hs : isSuccess status = true)
    (he : data.get "error" = none) :
    processResponse status text (Except.ok data) =
      Except.ok ("    The gas fee is: " ++ extractStr data "fee") :=
  processResponse_ok status text data hs he

/-- C1 witness: the spec's mock response with fee `"1234"` yields exactly
`"    The gas fee is: 1234"`. -/
theorem success_output_is_exactly_fee_line_witness :
    processResponse 200 "mock" (Except.ok mockStatsData) =
      Except.ok "    The gas fee is: 1234" :=
  (success_output_is_exactly_fee_line 200 "mock" mockStatsData rfl rfl).trans rfl

/-- C4: a non-success HTTP status always fails with `ApiError` (never
`HttpRequestFailed`) whatever the parse outcome, and the error detail
contains both the status code and the raw body text. -/
theorem bad_status_is_api_error (status : Nat) (text : String)
    (parsed : Except String Json) (hs : isSuccess status = false) :
    processResponse status text parsed =
      Except.error (CelestiaSearchError.ApiError
        ("Status: " ++ statusDisplay status ++ ", Response: " ++ text)) ∧
    strContains ("Status: " ++ statusDisplay status ++ ", Response: " ++ text)
      (Nat.repr status) ∧
    strContains ("Status: " ++ statusDisplay status ++ ", Response: " ++ text)
      text := by
  refine ⟨by simp [processResponse, hs], ?_, ?_⟩
  · exact ⟨"Status: ", ", Response: " ++ text, by
      simp [statusDisplay, String.append_assoc]⟩
  · exact ⟨"Status: " ++ statusDisplay status ++ ", Response: ", "", by
      simp [String.append_assoc]⟩

/-- C4 witness: a 404 with body `"not found"` fails with `ApiError` carrying
both the code and the body, even though the body is not valid JSON. -/
theorem bad_status_is_api_error_witness :
    processResponse 404 "not found" (Except.error "expected value") =
      Except.error (CelestiaSearchError.ApiError
        ("Status: " ++ statusDisplay 404 ++ ", Response: " ++ "not found")) ∧
    strContains ("Status: " ++ statusDisplay 404 ++ ", Response: " ++ "not found")
      (Nat.repr 404) ∧
    strContains ("Status: " ++ statusDisplay 404 ++ ", Response: " ++ "not found")
      "not found" :=
  bad_status_is_api_error 404 "not found" (Except.error "expected value") rfl

/-- C5: on a success status with a top-level `error` key, the call fails
with `ApiError` carrying `error.message` when that field is a string, and
the literal `"Unknown error"` when the field is absent. -/
theorem error_key_message_extraction (status : Nat) (text : String)
    (data err : Json) (hs : isSuccess status = true)
    (he : data.get "error" = some err) :
    (∀ m, err.get "message" = some (Json.str m) →
      processResponse status text (Except.ok data) =
        Except.error (CelestiaSearchError.ApiError m)) ∧
    (err.get "message" = none →
      processResponse status text (Except.ok data) =
        Except.error (CelestiaSearchError.ApiError "Unknown error")) := by
  constructor
  · intro m hm
    simp [processResponse, hs, he, hm, Json.as_str]
  · intro hm
    simp [processResponse, hs, he, hm]

/-- C5 witness: `error.message = "block not indexed"` yields
`ApiError "block not indexed"`, and an `error` object without `message`
yields `ApiError "Unknown error"`. -/
theorem error_key_message_extraction_witness :
    processResponse 200 "e1"
        (Except.ok (Json.obj
          [("error", Json.obj [("message", Json.str "block not indexed")])])) =
      Except.error (CelestiaSearchError.ApiError "block not indexed") ∧
    processResponse 200 "e2"
        (Except.ok (Json.obj [("error", Json.obj [("code", Json.num 7)])])) =
      Except.error (CelestiaSearchError.ApiError "Unknown error") :=
  ⟨(error_key_message_extraction 200 "e1"
      (Json.obj [("error", Json.obj [("message", Json.str "block not indexed")])])
      (Json.obj [("message", Json.str "block not indexed")]) rfl rfl).1
      "block not indexed" rfl,
   (error_key_message_extraction 200 "e2"
      (Json.obj [("error", Json.obj [("code", Json.num 7)])])
      (Json.obj [("code", Json.num 7)]) rfl rfl).2 rfl⟩

/-- C6: on a success status, a body that fails JSON parsing makes the call
fail with `HttpRequestFailed` carrying the parse error text, not with
`ApiError`. -/
theorem parse_failure_is_http_request_failed (status : Nat) (text e : String)
    (hs : isSuccess status = true) :
    processResponse status text (Except.error e) =
      Except.error (CelestiaSearchError.HttpRequestFailed e) := by
  simp [processResponse, hs]

/-- C6 witness: status 200 with an unparseable body fails with
`HttpRequestFailed` carrying the parser's message. -/
theorem parse_failure_is_http_request_failed_witness :
    processResponse 200 "not json" (Except.error "expected value at line 1") =
      Except.error
        (CelestiaSearchError.HttpRequestFailed "expected value at line 1") :=
  parse_failure_is_http_request_failed 200 "not json" "expected value at line 1"
    rfl

/-- C7: for every height the request URL is exactly
`https://api-mainnet.celenium.io/v1/block/{height}/stats` with the height in
decimal and no query parameters appended. -/
theorem request_url_shape (height : Nat) :
    buildUrl height =
      "https://api-mainnet.celenium.io/v1/block/" ++ Nat.repr height ++
        "/stats" := rfl

/-- C10: on a success status, an `error` key whose `message` field exists
but is not a JSON string fails with `ApiError "Unknown error"`, the same
detail as when `message` is absent. -/
theorem error_key_nonstring_message (status : Nat) (text : String)
    (data err j : Json) (hs : isSuccess status = true)
    (he : data.get "error" = some err) (hm : err.get "message" = some j)
    (hj : Json.as_str j = none) :
    processResponse status text (Except.ok data) =
      Except.error (CelestiaSearchError.ApiError "Unknown error") := by
  simp [processResponse, hs, he, hm, hj]

/-- C10 witness: `error.message` equal to the JSON number 5 yields
`ApiError "Unknown error"`. -/
theorem error_key_nonstring_message_witness :
    processResponse 200 "e3"
        (Except.ok (Json.obj
          [("error", Json.obj [("message", Json.num 5)])])) =
      Except.error (CelestiaSearchError.ApiError "Unknown error") :=
  error_key_nonstring_message 200 "e3"
    (Json.obj [("error", Json.obj [("message", Json.num 5)])])
    (Json.obj [("message", Json.num 5)]) (Json.num 5) rfl rfl rfl rfl

/-- C2: for each numeric field key, a value present as a JSON string that
parses as an unsigned 64-bit integer extracts to exactly that integer, while
a missing key, a non-string JSON value, or unparseable text extracts to 0. -/
theorem numeric_field_extraction (data : Json) (key : String)
    (_hkey : key ∈ numericKeys) :
    (∀ s n, data.get key = some (Json.str s) → parseU64 s = some n →
      extractU64 data key = n) ∧
    (data.get key = none → extractU64 data key = 0) ∧
    (∀ j, data.get key = some j → Json.as_str j = none →
      extractU64 data key = 0) ∧
    (∀ s, data.get key = some (Json.str s) → parseU64 s = none →
      extractU64 data key = 0) := by
  refine ⟨?_, ?_, ?_, ?_⟩
  · intro s n hg hp
    simp [extractU64, hg, Json.as_str, hp]
  · intro hg
    simp [extractU64, hg]
    rfl
  · intro j hg hj
    simp [extractU64, hg, hj]
    rfl
  · intro s hg hp
    simp [extractU64, hg, Json.as_str, hp]

/-- C2 witness: `tx_count = "5"` extracts to 5; a missing `gas_used`, a
numeric (non-string) `block_time`, and an overflowing `gas_limit` all
extract to 0. -/
theorem numeric_field_extraction_witness :
    extractU64 mockNumData "tx_count" = 5 ∧
    extractU64 mockNumData "gas_used" = 0 ∧
    extractU64 mockNumData "block_time" = 0 ∧
    extractU64 mockNumData "gas_limit" = 0 :=
  ⟨(numeric_field_extraction mockNumData "tx_count" (by decide)).1 "5" 5 rfl
      rfl,
   (numeric_field_extraction mockNumData "gas_used" (by decide)).2.1 rfl,
   (numeric_field_extraction mockNumData "block_time" (by decide)).2.2.1
      (Json.num 3) rfl rfl,
   (numeric_field_extraction mockNumData "gas_limit" (by decide)).2.2.2
      "99999999999999999999999999" rfl rfl⟩

/-- C3: a field whose key is missing or whose value is not a JSON string
degrades to its default (0 numerically, `"0"` as a string); extraction of
any other key depends only on that key's own value, so one field's failure
changes no other field; and such a failure never makes the call error. -/
theorem field_failures_are_independent (d : Json) (key : String)
    (hfail : d.get key = none ∨
      ∃ j, d.get key = some j ∧ Json.as_str j = none) :
    extractU64 d key = 0 ∧ extractStr d key = "0" ∧
    (∀ d2 k2, k2 ≠ key → d.get k2 = d2.get k2 →
      extractU64 d k2 = extractU64 d2 k2 ∧ extractStr d k2 = extractStr d2 k2) ∧
    (∀ status text, isSuccess status = true → d.get "error" = none →
      ∃ out, processResponse status text (Except.ok d) = Except.ok out) := by
  refine ⟨?_, ?_, ?_, ?_⟩
  · rcases hfail with hg | ⟨j, hg, hj⟩
    · simp [extractU64, hg]
      rfl
    · simp [extractU64, hg, hj]
      rfl
  · rcases hfail with hg | ⟨j, hg, hj⟩
    · simp [extractStr, hg]
    · simp [extractStr, hg, hj]
  · intro d2 k2 hne hgk
    exact ⟨by simp [extractU64, hgk], by simp [extractStr, hgk]⟩
  · intro status text hs he
    exact ⟨_, processResponse_ok status text d hs he⟩

/-- C3 witness: a wrongly-typed `fee` degrades to `"0"`, leaves `tx_count`
extracting identically to a response without the broken field, and the call
still succeeds. -/
theorem field_failures_are_independent_witness :
    extractStr mockBrokenFee "fee" = "0" ∧
    extractU64 mockBrokenFee "tx_count" = extractU64 mockTxOnly "tx_count" ∧
    (∃ out, processResponse 200 "mock3" (Except.ok mockBrokenFee) =
      Except.ok out) :=
  have h := field_failures_are_independent mockBrokenFee "fee"
    (Or.inr ⟨Json.num 7, rfl, rfl⟩)
  ⟨h.2.1, (h.2.2.1 mockTxOnly "tx_count" (by decide) rfl).1,
   h.2.2.2 200 "mock3" rfl rfl⟩

/-- C8: on a success status, any parsed JSON body without a top-level
`error` key makes the call return `Ok`; in particular a body that is not a
JSON object at all yields the all-defaults output
`"    The gas fee is: 0"`. -/
theorem success_never_fails (status : Nat) (text : String) (data : Json)
    (hs : isSuccess status = true) (he : data.get "error" = none) :
    (∃ out, processResponse status text (Except.ok data) = Except.ok out) ∧
    ((∀ fields, data ≠ Json.obj fields) →
      processResponse status text (Except.ok data) =
        Except.ok "    The gas fee is: 0") := by
  constructor
  · exact ⟨_, processResponse_ok status text data hs he⟩
  · intro hno
    rw [processResponse_ok status text data hs he]
    simp [extractStr, Json.get_eq_none_of_not_obj data "fee" hno]

/-- C8 witness: a success status whose body is the JSON array `[]` (not an
object) still succeeds, with every field defaulted. -/
theorem success_never_fails_witness :
    processResponse 200 "arr" (Except.ok (Json.arr [])) =
      Except.ok "    The gas fee is: 0" :=
  (success_never_fails 200 "arr" (Json.arr []) rfl rfl).2
    (fun _ h => Json.noConfusion h)

/-- C9: the success output depends only on the extracted `fee` string — two
error-free success responses with equal extracted fees produce identical
results, whatever their other fields, bodies, or status codes. -/
theorem output_depends_only_on_fee (s1 s2 : Nat) (t1 t2 : String)
    (d1 d2 : Json) (h1 : isSuccess s1 = true) (h2 : isSuccess s2 = true)
    (e1 : d1.get "error" = none) (e2 : d2.get "error" = none)
    (hfee : extractStr d1 "fee" = extractStr d2 "fee") :
    processResponse s1 t1 (Except.ok d1) = processResponse s2 t2 (Except.ok d2) := by
  rw [processResponse_ok s1 t1 d1 h1 e1, processResponse_ok s2 t2 d2 h2 e2,
    hfee]

/-- C9 witness: two responses sharing fee `"7"` but differing in status,
body text, transaction count, blob count and rewards produce the same
output. -/
theorem output_depends_only_on_fee_witness :
    processResponse 200 "bodyA" (Except.ok mockFeeA) =
      processResponse 204 "bodyB" (Except.ok mockFeeB) :=
  output_depends_only_on_fee 200 204 "bodyA" "bodyB" mockFeeA mockFeeB rfl rfl
    rfl rfl rfl

end Celestia
